import Mathlib

/-!
# Verification of the lambrk-frontend core logic

A shallow embedding of the token-refresh interceptor
(`src/app/interceptors/auth.interceptor.ts`), the auth service
(`AuthService`), the WebSocket connection manager
(`src/app/services/websocket.service.ts`) and the vote services
(`VoteService.votePost` / `PostService.votePost`), together with theorems
settling the behavioural claims about them.

The embedding is event-driven: the TypeScript sources are single-threaded
(browser event loop), so each handler is a pure state-transition function
and a scenario is a fold of events over a state record.
-/

/-! ## HTTP requests and headers -/

/-- A header list, as name/value pairs. -/
abbrev Headers := List (String × String)

/-- `HttpHeaders.set`: replaces every existing value of `name` with `value`
(models Angular's `setHeaders` clone option). -/
def setHeader (hs : Headers) (name value : String) : Headers :=
  hs.filter (fun p => p.1 ≠ name) ++ [(name, value)]

/-- Look up the value of a header by name. -/
def getHeader (hs : Headers) (name : String) : Option String :=
  (hs.find? (fun p => p.1 = name)).map (fun p => p.2)

/-- An outgoing HTTP request: a URL and its headers. -/
structure HttpRequest where
  url : String
  headers : Headers
  deriving DecidableEq, Repr

/-- `pat.isPrefixOf s` on character lists, written out so every use is
a plain structural recursion. -/
def listStarts : List Char → List Char → Bool
  | _, [] => true
  | [], _ :: _ => false
  | c :: s, d :: p => c == d && listStarts s p

/-- JavaScript `String.prototype.includes`: does `s` contain `pat` as a
contiguous substring? -/
def strIncludes (s pat : String) : Bool :=
  go s.data pat.data
where
  go : List Char → List Char → Bool
    | [], pat => pat.isEmpty
    | c :: rest, pat => listStarts (c :: rest) pat || go rest pat

/-- `AUTH_ENDPOINTS` (auth.interceptor.ts line 17). -/
def AUTH_ENDPOINTS : List String :=
  ["/api/auth/login", "/api/auth/register", "/api/auth/refresh"]

/-- `isAuthEndpoint` (auth.interceptor.ts lines 19-21):
`AUTH_ENDPOINTS.some(ep => url.includes(ep))`. -/
def isAuthEndpoint (url : String) : Bool :=
  AUTH_ENDPOINTS.any (fun ep => strIncludes url ep)

/-- `addToken` (auth.interceptor.ts lines 23-27): clone the request with
the `Authorization` header set to `Bearer <token>`. -/
def addToken (req : HttpRequest) (token : String) : HttpRequest :=
  { req with headers := setHeader req.headers "Authorization" ("Bearer " ++ token) }

/-- The request that `authInterceptorFn` (lines 34-49) hands to `next`:
auth endpoints pass through untouched; otherwise the stored access token,
if any, is attached. -/
def dispatchRequest (storedToken : Option String) (req : HttpRequest) : HttpRequest :=
  if isAuthEndpoint req.url then req
  else
    match storedToken with
    | some t => addToken req t
    | none => req

/-! ## AuthService session state -/

/-- The refresh response body (`AuthResponse` in post.model.ts): the fields
the core logic reads. -/
structure AuthResponse where
  accessToken : String
  refreshToken : String
  user : String
  deriving DecidableEq, Repr

/-- The session state owned by `AuthService` (part of localStorage plus the
`currentUser` / `isAuthenticated` signals). -/
structure AuthState where
  accessToken : Option String
  refreshToken : Option String
  storedUser : Option String
  currentUser : Option String
  isAuthenticated : Bool
  deriving DecidableEq, Repr

/-- `AuthService.handleAuthSuccess`: store both tokens and the user, set the
signals. -/
def handleAuthSuccess (res : AuthResponse) (st : AuthState) : AuthState :=
  { st with
    accessToken := some res.accessToken
    refreshToken := some res.refreshToken
    storedUser := some res.user
    currentUser := some res.user
    isAuthenticated := true }

/-- `AuthService.handleLogout`: `clearTokens` (remove access token, refresh
token and user from storage) and reset the signals. -/
def handleLogout (st : AuthState) : AuthState :=
  { st with
    accessToken := none
    refreshToken := none
    storedUser := none
    currentUser := none
    isAuthenticated := false }

/-! ## Token Refresh Coordinator

Module-level shared state of auth.interceptor.ts: the boolean
`isRefreshing` (line 14) and the `BehaviorSubject` `refreshTokenSubject`
(line 15, current value `Option String`). Requests queued by `handle401`
subscribe to the subject with `filter(token ≠ null), take(1)`; they are
held in `waiters` in registration order. `dispatched` records every
request re-dispatched through `next(addToken(...))`, `failedReqs` every
request whose observable errored, and `refreshCalls` counts upstream
`POST /api/auth/refresh` calls. -/

structure CoordState where
  isRefreshing : Bool
  subjectValue : Option String
  pendingTrigger : Option HttpRequest
  waiters : List HttpRequest
  auth : AuthState
  refreshCalls : Nat
  dispatched : List HttpRequest
  failedReqs : List HttpRequest
  deriving DecidableEq, Repr

/-- `handle401` (auth.interceptor.ts lines 59-91).
If `isRefreshing` is clear: set it, push `null` into the subject, and call
`authService.refreshToken()` (one upstream call; the 401-ed request becomes
the pending trigger of that call).
Otherwise subscribe to the subject: a `BehaviorSubject` replays its current
value on subscription, so if a token is already present the request is
re-dispatched with it at once, and if the current value is `null` the
request waits for the next non-null emission. -/
def handle401 (req : HttpRequest) (s : CoordState) : CoordState :=
  if !s.isRefreshing then
    { s with
      isRefreshing := true
      subjectValue := none
      pendingTrigger := some req
      refreshCalls := s.refreshCalls + 1 }
  else
    match s.subjectValue with
    | some tok => { s with dispatched := s.dispatched ++ [addToken req tok] }
    | none => { s with waiters := s.waiters ++ [req] }

/-- The in-flight refresh call resolves successfully (auth.interceptor.ts
lines 68-73 plus `AuthService.refreshToken`'s `tap`): `handleAuthSuccess`
stores the new tokens; the interceptor clears `isRefreshing`, pushes the
new access token into the subject — which synchronously releases every
waiter, in registration order, re-dispatched via `addToken` — and then
re-dispatches the triggering request itself with the same token. -/
def refreshSuccess (res : AuthResponse) (s : CoordState) : CoordState :=
  { s with
    auth := handleAuthSuccess res s.auth
    isRefreshing := false
    subjectValue := some res.accessToken
    pendingTrigger := none
    waiters := []
    dispatched := s.dispatched
      ++ s.waiters.map (fun r => addToken r res.accessToken)
      ++ (match s.pendingTrigger with
          | some r => [addToken r res.accessToken]
          | none => []) }

/-- The in-flight refresh call fails (auth.interceptor.ts lines 74-81 plus
`AuthService.refreshToken`'s `catchError`): `handleLogout` clears the
session, `isRefreshing` is cleared, and the error is rethrown to the
triggering request only. The subject is **not** touched, so the queued
waiters — filtering for a non-null token — stay queued. -/
def refreshFailure (s : CoordState) : CoordState :=
  { s with
    auth := handleLogout s.auth
    isRefreshing := false
    pendingTrigger := none
    failedReqs := s.failedReqs
      ++ (match s.pendingTrigger with
          | some r => [r]
          | none => []) }

/-- The events the coordinator reacts to: a dispatched request coming back
401 (entering `handle401`), and the in-flight refresh call settling. -/
inductive CoordEvent where
  | on401 (req : HttpRequest)
  | refreshOk (res : AuthResponse)
  | refreshErr
  deriving DecidableEq, Repr

/-- One step of the coordinator. -/
def coordStep (s : CoordState) : CoordEvent → CoordState
  | .on401 req => handle401 req s
  | .refreshOk res => refreshSuccess res s
  | .refreshErr => refreshFailure s

/-- Run a sequence of events (single-threaded event-loop dispatch). -/
def coordRun (events : List CoordEvent) (s : CoordState) : CoordState :=
  events.foldl coordStep s

/-- A session state with token `tok` stored. -/
def authWith (tok : String) : AuthState :=
  { accessToken := some tok
    refreshToken := some "refresh0"
    storedUser := some "alice"
    currentUser := some "alice"
    isAuthenticated := true }

/-- Quiescent coordinator: no refresh in flight, nothing queued. -/
def coordInit (tok : String) : CoordState :=
  { isRefreshing := false
    subjectValue := none
    pendingTrigger := none
    waiters := []
    auth := authWith tok
    refreshCalls := 0
    dispatched := []
    failedReqs := [] }

/-! ## Realtime Connection Manager (websocket.service.ts)

Deterministic step functions for the handlers of `WebSocketService`.
`clientConnected` is `this.client?.connected` (the STOMP library's flag:
set when the handshake completes, false after the transport drops),
`hasToken` whether `localStorage` holds `reddit_access_token`, and
`pendingTimers` the delays of the reconnect timers scheduled by
`setTimeout` and not yet fired. -/

/-- `WebSocketConnectionState` (websocket.model.ts). -/
inductive ConnState where
  | DISCONNECTED
  | CONNECTING
  | CONNECTED
  | RECONNECTING
  | ERROR
  deriving DecidableEq, Repr

/-- `WebSocketConnectionEvent`: one entry of the connection-event log
(state, optional error detail, optional attempt counter; the wall-clock
timestamp is irrelevant to every claim and omitted). -/
structure ConnEvent where
  state : ConnState
  errMsg : Option String
  reconnectAttempt : Option Nat
  deriving DecidableEq, Repr

structure WsState where
  clientConnected : Bool
  hasToken : Bool
  connectionState : ConnState
  events : List ConnEvent
  reconnectAttempts : Nat
  activeSubscriptions : List String
  pendingTimers : List Nat
  deriving DecidableEq, Repr

/-- `maxReconnectAttempts` (websocket.service.ts line 37). -/
def maxReconnectAttempts : Nat := 5

/-- `reconnectDelay` in milliseconds (websocket.service.ts line 38). -/
def reconnectDelay : Nat := 1000

/-- `setConnectionState` (lines 155-170): set the state signal and append
an event to the log. -/
def setConnectionState (s : WsState) (st : ConnState)
    (err : Option String) (attempt : Option Nat) : WsState :=
  { s with
    connectionState := st
    events := s.events ++ [{ state := st, errMsg := err, reconnectAttempt := attempt }] }

/-- `subscribe` (lines 257-266): when not connected, warn and drop;
when connected, register the handler with the STOMP client and push the
destination onto `activeSubscriptions` — unconditionally. -/
def wsSubscribe (dest : String) (s : WsState) : WsState :=
  if !s.clientConnected then s
  else { s with activeSubscriptions := s.activeSubscriptions ++ [dest] }

/-- `unsubscribe` (lines 268-274): when not connected, return; otherwise
filter the destination out of `activeSubscriptions`. -/
def wsUnsubscribe (dest : String) (s : WsState) : WsState :=
  if !s.clientConnected then s
  else { s with activeSubscriptions := s.activeSubscriptions.filter (fun d => d ≠ dest) }

/-- `scheduleReconnect` (lines 137-153): at or above the ceiling, record
`ERROR` and schedule nothing; below it, increment the counter, record
`RECONNECTING` with the new counter, and `setTimeout(connect, delay)` with
`delay = reconnectDelay * attempts`. -/
def scheduleReconnect (s : WsState) : WsState :=
  if s.reconnectAttempts ≥ maxReconnectAttempts then
    setConnectionState s .ERROR (some "Max reconnect attempts reached") none
  else
    let n := s.reconnectAttempts + 1
    let s1 := setConnectionState { s with reconnectAttempts := n } .RECONNECTING none (some n)
    { s1 with pendingTimers := s1.pendingTimers ++ [reconnectDelay * n] }

/-- `onWebSocketError` (lines 118-122), fired when the underlying transport
drops (which leaves the STOMP client's `connected` flag false): record
`ERROR`, then `scheduleReconnect`. -/
def onWebSocketError (s : WsState) : WsState :=
  scheduleReconnect
    (setConnectionState { s with clientConnected := false }
      .ERROR (some "WebSocket connection failed") none)

/-- `connect` (lines 64-126): no-op when already connected or when no token
is stored; otherwise record `CONNECTING` and activate the client (the
handshake completes asynchronously via `onConnect`). One reconnect timer
firing consumes one entry of `pendingTimers`. -/
def wsConnect (s : WsState) : WsState :=
  if s.clientConnected then s
  else if !s.hasToken then s
  else setConnectionState s .CONNECTING none none

/-- `onConnect` (lines 96-103): reset the attempt counter to 0, record
`CONNECTED`, then `subscribeToUserTopics` — subscribe each per-user topic
key in turn (`userTopics` is the list of keys derived from the current
principal; empty when no user is set). -/
def wsOnConnect (userTopics : List String) (s : WsState) : WsState :=
  let s1 := setConnectionState
    { s with clientConnected := true, reconnectAttempts := 0 } .CONNECTED none none
  userTopics.foldl (fun st t => wsSubscribe t st) s1

/-- `disconnect` (lines 128-135): deactivate and drop the client, clear
`activeSubscriptions`, record `DISCONNECTED`. -/
def wsDisconnect (s : WsState) : WsState :=
  setConnectionState
    { s with clientConnected := false, activeSubscriptions := [] }
    .DISCONNECTED none none

/-- A freshly connected manager (after `connect` then `onConnect`): the
state used by the concrete scenarios. -/
def wsConnectedInit : WsState :=
  { clientConnected := true
    hasToken := true
    connectionState := .CONNECTED
    events := [{ state := .CONNECTED, errMsg := none, reconnectAttempt := none }]
    reconnectAttempts := 0
    activeSubscriptions := []
    pendingTimers := [] }

/-! ## Voting (VoteService.votePost, PostService.votePost) -/

/-- `VoteType` (post.model.ts). -/
inductive VoteType where
  | UPVOTE
  | DOWNVOTE
  deriving DecidableEq, Repr

/-- The body of `POST /api/votes/post` (`VotePostRequest`): `voteType` is
non-nullable in the wire shape. -/
structure VotePostRequest where
  voteType : VoteType
  postId : Int
  commentId : Option Int
  deriving DecidableEq, Repr

/-- `VoteService.votePost` request construction (recommendation.model.ts
lines 181-186): `voteType: voteType ?? 'UPVOTE'` — the API requires a type
even when removing a vote. -/
def votePostRequest (postId : Int) (voteType : Option VoteType) : VotePostRequest :=
  { voteType := voteType.getD .UPVOTE
    postId := postId
    commentId := none }

/-- `VoteResult` (post.model.ts): what `VoteService.votePost` emits. -/
structure VoteResult where
  success : Bool
  newScore : Int
  newUpvoteCount : Int
  newDownvoteCount : Int
  userVote : Option VoteType
  deriving DecidableEq, Repr

/-- The `VoteResult` that `VoteService.votePost` emits after the server
answers `200 OK` with an empty body (lines 197-204): placeholder zeros,
independent of anything the server returned. -/
def voteServiceResult (voteType : Option VoteType) : VoteResult :=
  { success := true
    newScore := 0
    newUpvoteCount := 0
    newDownvoteCount := 0
    userVote := voteType }

/-- The fields of `Post` that `PostService.votePost` reads and writes. -/
structure Post where
  id : Int
  score : Int
  upvoteCount : Int
  downvoteCount : Int
  userVote : Option VoteType
  deriving DecidableEq, Repr

/-- The delta triple (scoreDelta, upvoteDelta, downvoteDelta) and the new
`userVote` computed by `PostService.votePost` (recommendation.model.ts
lines 557-609), translated branch for branch. -/
def voteDeltas (currentUserVote : Option VoteType) (voteType : Option VoteType) :
    Int × Int × Int × Option VoteType :=
  match voteType with
  | none =>
    match currentUserVote with
    | some .UPVOTE => (-1, -1, 0, none)
    | some .DOWNVOTE => (1, 0, -1, none)
    | none => (0, 0, 0, none)
  | some vt =>
    if currentUserVote = some vt then
      match vt with
      | .UPVOTE => (-1, -1, 0, none)
      | .DOWNVOTE => (1, 0, -1, none)
    else if currentUserVote = none then
      match vt with
      | .UPVOTE => (1, 1, 0, some vt)
      | .DOWNVOTE => (-1, 0, 1, some vt)
    else
      match vt with
      | .UPVOTE => (2, 1, -1, some vt)
      | .DOWNVOTE => (-2, -1, 1, some vt)

/-- The `updatedPost` object of `PostService.votePost` (lines 611-623):
previous local state plus the computed deltas. It is built before the
HTTP call and is what the `map` callback writes into the signals. -/
def applyVote (p : Post) (voteType : Option VoteType) : Post :=
  let d := voteDeltas p.userVote voteType
  { p with
    score := p.score + d.1
    upvoteCount := p.upvoteCount + d.2.1
    downvoteCount := p.downvoteCount + d.2.2.1
    userVote := d.2.2.2 }

/-- What `PostService.votePost`'s `map` callback (lines 626-639) returns
and stores: the pre-computed `updatedPost`. Its `VoteResult` argument — the
emission of `VoteService.votePost` — is ignored (`map(() => ...)`). -/
def postServiceVoteOutcome (p : Post) (voteType : Option VoteType)
    (_serverEmission : VoteResult) : Post :=
  applyVote p voteType

/-! ## Concrete inputs used by witnesses and counterexamples -/

/-- A plain API request (not an auth endpoint). -/
def reqA : HttpRequest := { url := "/api/posts/1", headers := [] }

/-- A second plain API request. -/
def reqB : HttpRequest := { url := "/api/posts/2", headers := [] }

/-- A third plain API request. -/
def reqC : HttpRequest := { url := "/api/comments/3", headers := [] }

/-- A login request (auth endpoint). -/
def loginReq : HttpRequest := { url := "/api/auth/login", headers := [] }

/-- A refresh response carrying the new token pair. -/
def resXYZ : AuthResponse :=
  { accessToken := "xyz", refreshToken := "refresh1", user := "alice" }

/-- A post whose counts are consistent and which the user has upvoted. -/
def post0 : Post :=
  { id := 1, score := 1, upvoteCount := 2, downvoteCount := 1, userVote := some .UPVOTE }

/-! ## Helper lemmas -/

theorem coordRun_nil (s : CoordState) : coordRun [] s = s := rfl

theorem coordRun_cons (e : CoordEvent) (es : List CoordEvent) (s : CoordState) :
    coordRun (e :: es) s = coordRun es (coordStep s e) := rfl

theorem coordRun_append (xs ys : List CoordEvent) (s : CoordState) :
    coordRun (xs ++ ys) s = coordRun ys (coordRun xs s) := by
  simp [coordRun, List.foldl_append]

/-- While a refresh is in flight and the subject still holds `null`, every
further 401 only appends its request to the waiter queue. -/
theorem coordRun_queue (rs : List HttpRequest) (s : CoordState)
    (h1 : s.isRefreshing = true) (h2 : s.subjectValue = none) :
    coordRun (rs.map CoordEvent.on401) s = { s with waiters := s.waiters ++ rs } := by
  induction rs generalizing s with
  | nil => rw [List.map_nil, coordRun_nil]; simp
  | cons r rs ih =>
    rw [List.map_cons, coordRun_cons]
    have hstep : coordStep s (CoordEvent.on401 r) = { s with waiters := s.waiters ++ [r] } := by
      simp [coordStep, handle401, h1, h2]
    rw [hstep, ih { s with waiters := s.waiters ++ [r] } h1 h2]
    simp

/-- A burst of N concurrent 401s hitting a quiescent coordinator: the first
starts the refresh, the rest queue. -/
theorem coordRun_burst (r : HttpRequest) (rs : List HttpRequest) (s : CoordState)
    (h : s.isRefreshing = false) :
    coordRun ((r :: rs).map CoordEvent.on401) s =
      { s with
        isRefreshing := true
        subjectValue := none
        pendingTrigger := some r
        refreshCalls := s.refreshCalls + 1
        waiters := s.waiters ++ rs } := by
  rw [List.map_cons, coordRun_cons]
  have hstep : coordStep s (CoordEvent.on401 r) =
      { s with
        isRefreshing := true
        subjectValue := none
        pendingTrigger := some r
        refreshCalls := s.refreshCalls + 1 } := by
    simp [coordStep, handle401, h]
  rw [hstep, coordRun_queue rs _ rfl rfl]

theorem getHeader_setHeader (hs : Headers) (name value : String) :
    getHeader (setHeader hs name value) name = some value := by
  induction hs with
  | nil => simp [setHeader, getHeader]
  | cons p hs ih =>
    by_cases hp : p.1 = name <;>
      simp_all [setHeader, getHeader, List.filter_cons, List.find?_cons]

theorem getHeader_addToken (req : HttpRequest) (token : String) :
    getHeader (addToken req token).headers "Authorization" = some ("Bearer " ++ token) := by
  simp [addToken, getHeader_setHeader]

/-! ## Claims -/

/-- C1. For every burst of N concurrent requests that each receive a 401
while no refresh is in flight, exactly one upstream refresh call is made:
the first 401 handler sets the in-flight flag synchronously and invokes the
refresh endpoint (becoming the pending trigger), and every later one is
queued on the shared pending token — the refresh-call counter rises by
exactly one and no waiter dispatches anything of its own. -/
theorem single_refresh_call (r : HttpRequest) (rs : List HttpRequest) (s : CoordState)
    (h : s.isRefreshing = false) :
    (coordRun ((r :: rs).map CoordEvent.on401) s).refreshCalls = s.refreshCalls + 1 ∧
    (coordRun ((r :: rs).map CoordEvent.on401) s).isRefreshing = true ∧
    (coordRun ((r :: rs).map CoordEvent.on401) s).pendingTrigger = some r ∧
    (coordRun ((r :: rs).map CoordEvent.on401) s).waiters = s.waiters ++ rs ∧
    (coordRun ((r :: rs).map CoordEvent.on401) s).dispatched = s.dispatched := by
  rw [coordRun_burst r rs s h]
  exact ⟨rfl, rfl, rfl, rfl, rfl⟩

/-- Witness for C1: three concurrent 401s on a quiescent coordinator make
exactly one refresh call. -/
theorem single_refresh_call_witness :
    (coordInit "abc").isRefreshing = false ∧
    (coordRun ([reqA, reqB, reqC].map CoordEvent.on401) (coordInit "abc")).refreshCalls
      = (coordInit "abc").refreshCalls + 1 :=
  ⟨rfl, (single_refresh_call reqA [reqB, reqC] (coordInit "abc") rfl).1⟩

/-- C2 counterexample: two concurrent 401s, then the refresh fails. The
claim says the queued waiter (`reqB`) receives the failure; in fact only
the triggering request (`reqA`) errors, `reqB` is still sitting in the
waiter queue, and nothing was dispatched. -/
theorem refresh_failure_waiter_cex :
    (coordRun [CoordEvent.on401 reqA, CoordEvent.on401 reqB, CoordEvent.refreshErr]
        (coordInit "abc")).waiters = [reqB] ∧
    (coordRun [CoordEvent.on401 reqA, CoordEvent.on401 reqB, CoordEvent.refreshErr]
        (coordInit "abc")).failedReqs = [reqA] ∧
    (coordRun [CoordEvent.on401 reqA, CoordEvent.on401 reqB, CoordEvent.refreshErr]
        (coordInit "abc")).dispatched = [] := by
  refine ⟨rfl, rfl, rfl⟩

/-- C2 amended: if the in-flight refresh fails, only the request that
triggered the refresh receives the failure; every queued waiter is left
pending — it neither fails nor is re-dispatched — because the pending-token
subject is never resolved on the failure path. -/
theorem refresh_failure_waiters_stranded (r : HttpRequest) (rs : List HttpRequest)
    (s : CoordState) (h : s.isRefreshing = false) :
    (coordRun ((r :: rs).map CoordEvent.on401 ++ [CoordEvent.refreshErr]) s).failedReqs
      = s.failedReqs ++ [r] ∧
    (coordRun ((r :: rs).map CoordEvent.on401 ++ [CoordEvent.refreshErr]) s).waiters
      = s.waiters ++ rs ∧
    (coordRun ((r :: rs).map CoordEvent.on401 ++ [CoordEvent.refreshErr]) s).dispatched
      = s.dispatched ∧
    (coordRun ((r :: rs).map CoordEvent.on401 ++ [CoordEvent.refreshErr]) s).subjectValue
      = none := by
  rw [coordRun_append, coordRun_burst r rs s h]
  refine ⟨rfl, rfl, rfl, rfl⟩

/-- Witness for C2 amended: concrete two-request run. -/
theorem refresh_failure_waiters_stranded_witness :
    (coordInit "abc").isRefreshing = false ∧
    (coordRun ((reqA :: [reqB]).map CoordEvent.on401 ++ [CoordEvent.refreshErr])
        (coordInit "abc")).waiters = (coordInit "abc").waiters ++ [reqB] :=
  ⟨rfl, (refresh_failure_waiters_stranded reqA [reqB] (coordInit "abc") rfl).2.1⟩

/-- C3. If the refresh call succeeds returning access token T, every
request queued on that refresh and the triggering request itself are
re-dispatched through `addToken` with T, and `addToken` sets the header
`Authorization: Bearer T` exactly; the stored access token is now T. -/
theorem refresh_success_redispatch (r : HttpRequest) (rs : List HttpRequest)
    (s : CoordState) (res : AuthResponse) (h : s.isRefreshing = false) :
    (coordRun ((r :: rs).map CoordEvent.on401 ++ [CoordEvent.refreshOk res]) s).dispatched
      = s.dispatched ++ (s.waiters ++ rs).map (fun q => addToken q res.accessToken)
          ++ [addToken r res.accessToken] ∧
    (coordRun ((r :: rs).map CoordEvent.on401 ++ [CoordEvent.refreshOk res]) s).waiters
      = [] ∧
    (∀ q : HttpRequest,
      getHeader (addToken q res.accessToken).headers "Authorization"
        = some ("Bearer " ++ res.accessToken)) ∧
    (coordRun ((r :: rs).map CoordEvent.on401 ++ [CoordEvent.refreshOk res]) s).auth.accessToken
      = some res.accessToken := by
  rw [coordRun_append, coordRun_burst r rs s h]
  refine ⟨?_, rfl, fun q => getHeader_addToken q res.accessToken, rfl⟩
  simp [coordRun, coordStep, refreshSuccess]

/-- Witness for C3: two queued requests plus the trigger all go out with
`Authorization: Bearer xyz` after a refresh returning token `xyz`. -/
theorem refresh_success_redispatch_witness :
    (coordInit "abc").isRefreshing = false ∧
    (coordRun ((reqA :: [reqB, reqC]).map CoordEvent.on401 ++ [CoordEvent.refreshOk resXYZ])
        (coordInit "abc")).dispatched
      = (coordInit "abc").dispatched
          ++ ((coordInit "abc").waiters ++ [reqB, reqC]).map (fun q => addToken q resXYZ.accessToken)
          ++ [addToken reqA resXYZ.accessToken] :=
  ⟨rfl, (refresh_success_redispatch reqA [reqB, reqC] (coordInit "abc") resXYZ rfl).1⟩

/-- C4. If the refresh call fails, the session is destroyed: the in-flight
flag is cleared, the stored access token, refresh token and user entry are
removed, the signals are reset (forced logout), and exactly one upstream
refresh call was made for the 401 — the failure schedules no retry. -/
theorem refresh_failure_logout (r : HttpRequest) (s : CoordState)
    (h : s.isRefreshing = false) :
    (coordRun [CoordEvent.on401 r, CoordEvent.refreshErr] s).auth.accessToken = none ∧
    (coordRun [CoordEvent.on401 r, CoordEvent.refreshErr] s).auth.refreshToken = none ∧
    (coordRun [CoordEvent.on401 r, CoordEvent.refreshErr] s).auth.storedUser = none ∧
    (coordRun [CoordEvent.on401 r, CoordEvent.refreshErr] s).auth.currentUser = none ∧
    (coordRun [CoordEvent.on401 r, CoordEvent.refreshErr] s).auth.isAuthenticated = false ∧
    (coordRun [CoordEvent.on401 r, CoordEvent.refreshErr] s).isRefreshing = false ∧
    (coordRun [CoordEvent.on401 r, CoordEvent.refreshErr] s).refreshCalls
      = s.refreshCalls + 1 := by
  have hb : coordRun [CoordEvent.on401 r, CoordEvent.refreshErr] s
      = coordRun [CoordEvent.refreshErr] (coordRun ((r :: []).map CoordEvent.on401) s) := rfl
  rw [hb, coordRun_burst r [] s h]
  refine ⟨rfl, rfl, rfl, rfl, rfl, rfl, rfl⟩

/-- Witness for C4: a 401 followed by a failed refresh leaves the session
empty and unauthenticated. -/
theorem refresh_failure_logout_witness :
    (coordInit "abc").isRefreshing = false ∧
    (coordRun [CoordEvent.on401 reqA, CoordEvent.refreshErr]
        (coordInit "abc")).auth.isAuthenticated = false :=
  ⟨rfl, (refresh_failure_logout reqA (coordInit "abc") rfl).2.2.2.2.1⟩

/-- `wsSubscribe` never touches the event log. -/
theorem wsSubscribe_events (t : String) (s : WsState) :
    (wsSubscribe t s).events = s.events := by
  unfold wsSubscribe; split <;> rfl

/-- `wsSubscribe` never touches the attempt counter. -/
theorem wsSubscribe_attempts (t : String) (s : WsState) :
    (wsSubscribe t s).reconnectAttempts = s.reconnectAttempts := by
  unfold wsSubscribe; split <;> rfl

/-- Subscribing a list of topics touches neither the log nor the counter. -/
theorem wsSubsFold_frame (ts : List String) (s : WsState) :
    (ts.foldl (fun st t => wsSubscribe t st) s).events = s.events ∧
    (ts.foldl (fun st t => wsSubscribe t st) s).reconnectAttempts = s.reconnectAttempts := by
  induction ts generalizing s with
  | nil => exact ⟨rfl, rfl⟩
  | cons t ts ih =>
    rw [List.foldl_cons]
    exact ⟨(ih (wsSubscribe t s)).1.trans (wsSubscribe_events t s),
           (ih (wsSubscribe t s)).2.trans (wsSubscribe_attempts t s)⟩

/-- C5 counterexample: on a connected manager with an empty registry, two
`subscribe` calls with the same topic key leave the key in the registry
twice — the second call is not a no-op and the handler is registered a
second time, contradicting the at-most-once invariant. -/
theorem subscribe_duplicate_cex :
    (wsSubscribe "/topic/posts/1" (wsSubscribe "/topic/posts/1" wsConnectedInit)).activeSubscriptions
      = ["/topic/posts/1", "/topic/posts/1"] ∧
    ((wsSubscribe "/topic/posts/1" (wsSubscribe "/topic/posts/1" wsConnectedInit)).activeSubscriptions.count
        "/topic/posts/1" ≠ 1) := by
  refine ⟨rfl, by decide⟩

/-- C5 amended: `subscribe` while connected appends the key to the registry
unconditionally, so a second call with an already-present key registers the
handler again and the key count rises to two; it is `subscribe` while
disconnected that is dropped. -/
theorem subscribe_appends (k : String) (s : WsState) (h : s.clientConnected = true) :
    (wsSubscribe k s).activeSubscriptions = s.activeSubscriptions ++ [k] ∧
    (wsSubscribe k (wsSubscribe k s)).activeSubscriptions
      = s.activeSubscriptions ++ [k, k] ∧
    (wsSubscribe k (wsSubscribe k s)).activeSubscriptions.count k
      = s.activeSubscriptions.count k + 2 := by
  refine ⟨by simp [wsSubscribe, h], by simp [wsSubscribe, h], ?_⟩
  simp [wsSubscribe, h, List.count_append]

/-- Witness for C5 amended: concrete double subscription. -/
theorem subscribe_appends_witness :
    wsConnectedInit.clientConnected = true ∧
    (wsSubscribe "/topic/posts/1" (wsSubscribe "/topic/posts/1" wsConnectedInit)).activeSubscriptions
      = wsConnectedInit.activeSubscriptions ++ ["/topic/posts/1", "/topic/posts/1"] :=
  ⟨rfl, (subscribe_appends "/topic/posts/1" wsConnectedInit rfl).2.1⟩

/-- C6. Transport-error backoff: below the ceiling, each transport error
increments the counter, ends in `RECONNECTING`, and schedules exactly one
reconnect timer with delay `reconnectDelay * newAttempt`; at the ceiling a
further error ends in `ERROR`, schedules nothing, and leaves the counter
unchanged; six consecutive transport errors from a fresh counter end in
`ERROR` with the counter at 5 and exactly the five timers
1000, 2000, 3000, 4000, 5000 ms ever scheduled. -/
theorem transport_error_backoff (s t u : WsState)
    (hs : s.reconnectAttempts < maxReconnectAttempts)
    (ht : t.reconnectAttempts ≥ maxReconnectAttempts)
    (hu : u.reconnectAttempts = 0) :
    ((onWebSocketError s).reconnectAttempts = s.reconnectAttempts + 1 ∧
     (onWebSocketError s).connectionState = ConnState.RECONNECTING ∧
     (onWebSocketError s).pendingTimers
       = s.pendingTimers ++ [reconnectDelay * (s.reconnectAttempts + 1)]) ∧
    ((onWebSocketError t).connectionState = ConnState.ERROR ∧
     (onWebSocketError t).reconnectAttempts = t.reconnectAttempts ∧
     (onWebSocketError t).pendingTimers = t.pendingTimers) ∧
    ((onWebSocketError (onWebSocketError (onWebSocketError (onWebSocketError
        (onWebSocketError (onWebSocketError u)))))).connectionState = ConnState.ERROR ∧
     (onWebSocketError (onWebSocketError (onWebSocketError (onWebSocketError
        (onWebSocketError (onWebSocketError u)))))).reconnectAttempts = 5 ∧
     (onWebSocketError (onWebSocketError (onWebSocketError (onWebSocketError
        (onWebSocketError (onWebSocketError u)))))).pendingTimers
       = u.pendingTimers ++ [1000, 2000, 3000, 4000, 5000]) := by
  have hns : ¬ s.reconnectAttempts ≥ maxReconnectAttempts := Nat.not_le.mpr hs
  refine ⟨?_, ?_, ?_⟩
  · simp [onWebSocketError, scheduleReconnect, setConnectionState, hns]
  · simp [onWebSocketError, scheduleReconnect, setConnectionState, ht]
  · simp [onWebSocketError, scheduleReconnect, setConnectionState,
      maxReconnectAttempts, reconnectDelay, hu]

/-- Witness for C6: a fresh connected manager (counter 0) for the
below-ceiling and six-error parts, a manager at the ceiling for the other. -/
theorem transport_error_backoff_witness :
    wsConnectedInit.reconnectAttempts < maxReconnectAttempts ∧
    ({ wsConnectedInit with reconnectAttempts := 5 }.reconnectAttempts
      ≥ maxReconnectAttempts) ∧
    wsConnectedInit.reconnectAttempts = 0 ∧
    (onWebSocketError wsConnectedInit).reconnectAttempts
      = wsConnectedInit.reconnectAttempts + 1 :=
  ⟨by decide, by decide, rfl,
    (transport_error_backoff wsConnectedInit { wsConnectedInit with reconnectAttempts := 5 }
      wsConnectedInit (by decide) (by decide) rfl).1.1⟩

/-- C7 counterexample: a connected manager whose transport drops, followed
by the scheduled `connect` and a successful handshake. The recorded state
sequence is `CONNECTED, ERROR, RECONNECTING, CONNECTING, CONNECTED` — the
`onWebSocketError` handler logs a transient `ERROR` before
`scheduleReconnect` logs `RECONNECTING`, so the claimed sequence
`connected, reconnecting, connecting, connected` with no other states in
between does not match the log. -/
theorem drop_reconnect_sequence_cex :
    ((wsOnConnect [] (wsConnect (onWebSocketError wsConnectedInit))).events.map
        ConnEvent.state)
      = [ConnState.CONNECTED, ConnState.ERROR, ConnState.RECONNECTING,
         ConnState.CONNECTING, ConnState.CONNECTED] ∧
    ((wsOnConnect [] (wsConnect (onWebSocketError wsConnectedInit))).events.map
        ConnEvent.state)
      ≠ [ConnState.CONNECTED, ConnState.RECONNECTING,
         ConnState.CONNECTING, ConnState.CONNECTED] := by
  refine ⟨rfl, by decide⟩

/-- C7 amended: when the connection is established and the transport drops
unexpectedly, the recorded sequence is `connected`, then a transient
`error` entry (logged by the websocket-error handler before it schedules
the reconnect), then `reconnecting` with attempt counter 1, then
`connecting`, then `connected`; the attempt counter is reset to 0 on the
successful reconnection. -/
theorem drop_reconnect_sequence (s : WsState) (topics : List String)
    (_h1 : s.clientConnected = true) (h2 : s.hasToken = true)
    (h3 : s.reconnectAttempts = 0) :
    (wsOnConnect topics (wsConnect (onWebSocketError s))).events
      = s.events
        ++ [{ state := ConnState.ERROR,
              errMsg := some "WebSocket connection failed", reconnectAttempt := none },
            { state := ConnState.RECONNECTING, errMsg := none, reconnectAttempt := some 1 },
            { state := ConnState.CONNECTING, errMsg := none, reconnectAttempt := none },
            { state := ConnState.CONNECTED, errMsg := none, reconnectAttempt := none }] ∧
    (wsOnConnect topics (wsConnect (onWebSocketError s))).reconnectAttempts = 0 := by
  have herr : onWebSocketError s
      = { s with
          clientConnected := false
          connectionState := ConnState.RECONNECTING
          reconnectAttempts := 1
          events := s.events
            ++ [{ state := ConnState.ERROR,
                  errMsg := some "WebSocket connection failed", reconnectAttempt := none },
                { state := ConnState.RECONNECTING, errMsg := none, reconnectAttempt := some 1 }]
          pendingTimers := s.pendingTimers ++ [reconnectDelay * 1] } := by
    simp [onWebSocketError, scheduleReconnect, setConnectionState,
      maxReconnectAttempts, h3]
  have hconn : wsConnect (onWebSocketError s)
      = { onWebSocketError s with
          connectionState := ConnState.CONNECTING
          events := (onWebSocketError s).events
            ++ [{ state := ConnState.CONNECTING, errMsg := none, reconnectAttempt := none }] } := by
    rw [herr]
    simp [wsConnect, setConnectionState, h2]
  rw [wsOnConnect, hconn, herr]
  refine ⟨?_, ?_⟩
  · rw [(wsSubsFold_frame topics _).1]
    simp [setConnectionState]
  · rw [(wsSubsFold_frame topics _).2]
    rfl

/-- Witness for C7 amended: the concrete drop-and-reconnect run. -/
theorem drop_reconnect_sequence_witness :
    wsConnectedInit.clientConnected = true ∧
    wsConnectedInit.hasToken = true ∧
    wsConnectedInit.reconnectAttempts = 0 ∧
    (wsOnConnect [] (wsConnect (onWebSocketError wsConnectedInit))).reconnectAttempts = 0 :=
  ⟨rfl, rfl, rfl,
    (drop_reconnect_sequence wsConnectedInit [] rfl rfl rfl).2⟩

/-- C8. For every outgoing request: with no stored token it is forwarded
unmodified (so a request without an `Authorization` header stays without
one); a request targeting an auth endpoint (login, register, refresh) is
forwarded unmodified even when a token is stored; and any other request is
forwarded with the `Authorization` header set to `Bearer <accessToken>`. -/
theorem dispatch_token_attachment (tok : String) (req : HttpRequest) :
    dispatchRequest none req = req ∧
    (isAuthEndpoint req.url = true → dispatchRequest (some tok) req = req) ∧
    (isAuthEndpoint req.url = false →
      (dispatchRequest (some tok) req).url = req.url ∧
      getHeader (dispatchRequest (some tok) req).headers "Authorization"
        = some ("Bearer " ++ tok)) := by
  refine ⟨?_, ?_, ?_⟩
  · unfold dispatchRequest; split <;> rfl
  · intro h; simp [dispatchRequest, h]
  · intro h
    refine ⟨?_, ?_⟩
    · simp [dispatchRequest, h, addToken]
    · simp [dispatchRequest, h, getHeader_addToken]

/-- Witness for C8: the login request passes untouched, while a plain API
request acquires `Authorization: Bearer abc`. -/
theorem dispatch_token_attachment_witness :
    isAuthEndpoint loginReq.url = true ∧
    isAuthEndpoint reqA.url = false ∧
    dispatchRequest (some "abc") loginReq = loginReq ∧
    getHeader (dispatchRequest (some "abc") reqA).headers "Authorization"
      = some ("Bearer " ++ "abc") :=
  ⟨by decide, by decide,
    (dispatch_token_attachment "abc" loginReq).2.1 (by decide),
    ((dispatch_token_attachment "abc" reqA).2.2 (by decide)).2⟩

/-- C9. Every call to `votePost` sends a non-null vote type to the vote
endpoint — a null vote type (vote removal) is replaced by `UPVOTE` — and
the post state written back by `PostService.votePost` is computed from the
previous local post plus the client-side delta (`applyVote`), identically
for any emission of the vote call: the server response is ignored. -/
theorem vote_request_nonnull (pid : Int) (vt : Option VoteType) (p : Post)
    (r1 r2 : VoteResult) :
    (votePostRequest pid vt).voteType = vt.getD VoteType.UPVOTE ∧
    (votePostRequest pid none).voteType = VoteType.UPVOTE ∧
    postServiceVoteOutcome p vt r1 = postServiceVoteOutcome p vt r2 ∧
    postServiceVoteOutcome p vt r1 = applyVote p vt := by
  exact ⟨rfl, rfl, rfl, rfl⟩

/-- C10. The client-side vote-delta calculation preserves the score
identity: the applied score delta equals the upvote delta minus the
downvote delta, so a post satisfying `score = upvoteCount - downvoteCount`
still satisfies it after any vote action; and the updated `userVote` is
null exactly when the action is a removal (`null` vote type) or a
toggle-off (vote type equal to the current vote). -/
theorem vote_delta_consistency (p : Post) (vt : Option VoteType) :
    (applyVote p vt).score - p.score
      = ((applyVote p vt).upvoteCount - p.upvoteCount)
        - ((applyVote p vt).downvoteCount - p.downvoteCount) ∧
    (p.score = p.upvoteCount - p.downvoteCount →
      (applyVote p vt).score
        = (applyVote p vt).upvoteCount - (applyVote p vt).downvoteCount) ∧
    ((applyVote p vt).userVote = none ↔ (vt = none ∨ vt = p.userVote)) := by
  rcases p with ⟨id, score, up, down, uv⟩
  rcases vt with _ | v
  · rcases uv with _ | u
    · simp [applyVote, voteDeltas]
    · cases u <;> simp [applyVote, voteDeltas] <;> omega
  · rcases uv with _ | u
    · cases v <;> simp [applyVote, voteDeltas] <;> omega
    · cases v <;> cases u <;> simp [applyVote, voteDeltas] <;> omega

/-- Witness for C10: toggling off an upvote on a consistent post keeps the
score identity. -/
theorem vote_delta_consistency_witness :
    post0.score = post0.upvoteCount - post0.downvoteCount ∧
    (applyVote post0 (some VoteType.UPVOTE)).score
      = (applyVote post0 (some VoteType.UPVOTE)).upvoteCount
        - (applyVote post0 (some VoteType.UPVOTE)).downvoteCount :=
  ⟨by decide, (vote_delta_consistency post0 (some VoteType.UPVOTE)).2.1 (by decide)⟩
